import Mathlib

/-!
Shallow embedding of the ball-sort puzzle engine of this repository.

The main game file contains two full copies of the game class:
an authoritative bulk-pour version (validation with a same-tube check,
multi-ball pour, count-based win condition) and an older single-pour
draft (no same-tube check, one ball per move, shape-based win
condition).  The bulk-pour version is embedded as the primary model
(definitions without a numeric suffix); the validation and pour of the
single-pour draft are embedded with suffix 2 where a claim needs them.

JavaScript arrays are modelled as Lean lists with index 0 at the
bottom of the tube and the last element at the top, so that
Array.prototype.pop removes the last element (List.dropLast /
List.getLast?) and Array.prototype.push appends at the end.
Rejection reason strings are kept verbatim from the source.
-/

/-- A ball is an opaque color tag. -/
abbrev Color := String

/-- A tube: stable id, stack of balls (last element = top), fixed capacity. -/
structure Tube where
  id : Nat
  balls : List Color
  capacity : Nat
deriving Repr, DecidableEq

/-- Star thresholds of a level: the level JSON object stars with keys 1, 2, 3. -/
structure StarThresholds where
  s1 : Nat
  s2 : Nat
  s3 : Nat
deriving Repr, DecidableEq

/-- The mutable game state built by createGameLevel: the tubes, the move
counter (field moves, starting at 0), and the level data carried along by
the object spread (desiredLevel, minMoves, stars).  desiredLevel is
Option Nat because the level field is optional. -/
structure GameState where
  tubes : List Tube
  moves : Nat
  desiredLevel : Option Nat
  minMoves : Nat
  stars : StarThresholds
deriving Repr, DecidableEq

/-- Immutable level definition data consumed by the loader: levelId (a
JS-truthiness-checked number, 0 plays the role of a falsy/absent id),
tubes, color palette, and the fields forwarded into the game state. -/
structure LevelData where
  levelId : Nat
  tubes : List Tube
  colors : List Color
  desiredLevel : Option Nat
  minMoves : Nat
  stars : StarThresholds
deriving Repr, DecidableEq

/-- LevelManager.validateLevel: requires a truthy levelId, tubes and colors
arrays (an empty array is truthy in JS, hence allowed), and for each tube an
id, a balls array, a numeric capacity of at least 1, and every ball drawn
from the declared palette.  An empty tubes array passes the per-tube loop
vacuously. -/
def validateLevel (ld : LevelData) : Bool :=
  decide (ld.levelId ≠ 0) &&
    ld.tubes.all (fun tube =>
      decide (1 ≤ tube.capacity) &&
        tube.balls.all (fun ball => ld.colors.contains ball))

/-- LevelManager.createGameLevel: spreads the level data and deep-copies
the tubes (copying is the identity in this pure model), setting moves to 0. -/
def createGameLevel (ld : LevelData) : GameState :=
  { tubes := ld.tubes
    moves := 0
    desiredLevel := ld.desiredLevel
    minMoves := ld.minMoves
    stars := ld.stars }

/-- The target ball count per tube used by checkWinCondition: the source
reads desiredLevel with a JS falsy default (desiredLevel or-else 2), so both
an absent desiredLevel and a desiredLevel of 0 yield 2. -/
def targetFill (st : GameState) : Nat :=
  match st.desiredLevel with
  | none => 2
  | some n => if n = 0 then 2 else n

/-- The target fill as worded by the specification: the level desiredLevel,
defaulting to 2 only when absent.  Kept separate from targetFill so the two
readings can be compared. -/
def specTargetFill (desiredLevel : Option Nat) : Nat :=
  desiredLevel.getD 2

/-- BallSortGame.checkWinCondition (count-based, authoritative variant):
true iff every tube holds exactly the target number of balls. -/
def checkWinCondition (st : GameState) : Bool :=
  st.tubes.all (fun tube => tube.balls.length == targetFill st)

/-- BallSortGame.isValidMove (bulk-pour variant): reject an empty source
(reason: No balls to move), then a same-tube move (reason: Cannot move to
same tube), then a full destination (reason: Destination tube is full);
otherwise the move is valid (none).  No color condition is checked. -/
def isValidMove (fromTube toTube : Tube) : Option String :=
  if fromTube.balls.length = 0 then some "No balls to move"
  else if fromTube.id = toTube.id then some "Cannot move to same tube"
  else if toTube.balls.length ≥ toTube.capacity then some "Destination tube is full"
  else none

/-- BallSortGame.isValidMove (single-pour draft variant): reject an empty
source (No balls to move) then a full destination (Tube is full); no
same-tube check and no color condition. -/
def isValidMove2 (fromTube toTube : Tube) : Option String :=
  if fromTube.balls.length = 0 then some "No balls to move"
  else if toTube.balls.length ≥ toTube.capacity then some "Tube is full"
  else none

/-- The pour loop of the bulk-pour performMove: n times, pop the last ball
of the source and push it onto the destination.  The none branch mirrors a
pop on an empty array and is unreachable for the counts the caller uses. -/
def pourLoop : Nat → List Color → List Color → List Color × List Color
  | 0, f, t => (f, t)
  | Nat.succ n, f, t =>
    match f.getLast? with
    | none => (f, t)
    | some ball => pourLoop n f.dropLast (t ++ [ball])

/-- BallSortGame.performMove (bulk-pour variant), acting on the two tube
objects: moves min(length of source balls, free space of destination) balls
by repeated pop/push and reports how many balls moved.  The move-counter
increment it also performs lives in attemptMove in this model. -/
def performMove (fromTube toTube : Tube) : Tube × Tube × Nat :=
  let ballsToMove := fromTube.balls.length
  let availableSpace := toTube.capacity - toTube.balls.length
  let actualBallsToMove := min ballsToMove availableSpace
  let poured := pourLoop actualBallsToMove fromTube.balls toTube.balls
  ({ fromTube with balls := poured.1 }, { toTube with balls := poured.2 },
    actualBallsToMove)

/-- Array find over the tubes by id, as used by attemptMove and
handleTubeClick: the first tube whose id equals the requested id. -/
def findTube (tubes : List Tube) (tubeId : Nat) : Option Tube :=
  tubes.find? (fun t => t.id == tubeId)

/-- Write-back of an in-place mutation of the tube object found by id:
replace the first tube whose id matches. -/
def setTube : List Tube → Nat → Tube → List Tube
  | [], _, _ => []
  | t :: ts, tubeId, nt =>
    if t.id = tubeId then nt :: ts else t :: setTube ts tubeId nt

/-- Outcome of an attempted move, mirroring the control flow of
attemptMove: unknown tube ids, a rejection with the reason string, or a
success carrying how many balls were poured. -/
inductive MoveOutcome where
  | invalidIds : MoveOutcome
  | rejected : String → MoveOutcome
  | moved : Nat → MoveOutcome
deriving Repr, DecidableEq

/-- BallSortGame.attemptMove (bulk-pour variant), engine part: resolve both
ids, validate, and on success mutate both tubes and increment moves by 1.
On rejection or unresolved ids nothing is mutated. -/
def attemptMove (st : GameState) (fromId toId : Nat) : GameState × MoveOutcome :=
  match findTube st.tubes fromId, findTube st.tubes toId with
  | some fromTube, some toTube =>
    match isValidMove fromTube toTube with
    | some reason => (st, MoveOutcome.rejected reason)
    | none =>
      let result := performMove fromTube toTube
      let tubes2 := setTube (setTube st.tubes fromId result.1) toId result.2.1
      ({ st with tubes := tubes2, moves := st.moves + 1 },
        MoveOutcome.moved result.2.2)
  | _, _ => (st, MoveOutcome.invalidIds)

/-- BallSortGame.performMove (single-pour draft variant) on the tube list:
pop one ball from the tube found under fromId and push it onto the tube
found under toId, re-reading the destination after the pop so that the
aliasing of the two references in the source (same object when the ids
coincide) is reproduced. -/
def performMove2Tubes (tubes : List Tube) (fromId toId : Nat) : List Tube :=
  match findTube tubes fromId with
  | none => tubes
  | some fromTube =>
    match fromTube.balls.getLast? with
    | none => tubes
    | some ball =>
      let tubes1 := setTube tubes fromId { fromTube with balls := fromTube.balls.dropLast }
      match findTube tubes1 toId with
      | none => tubes1
      | some toTube => setTube tubes1 toId { toTube with balls := toTube.balls ++ [ball] }

/-- BallSortGame.attemptMove (single-pour draft variant), engine part. -/
def attemptMove2 (st : GameState) (fromId toId : Nat) : GameState × MoveOutcome :=
  match findTube st.tubes fromId, findTube st.tubes toId with
  | some fromTube, some toTube =>
    match isValidMove2 fromTube toTube with
    | some reason => (st, MoveOutcome.rejected reason)
    | none =>
      ({ st with tubes := performMove2Tubes st.tubes fromId toId,
                 moves := st.moves + 1 },
        MoveOutcome.moved 1)
  | _, _ => (st, MoveOutcome.invalidIds)

/-- Star computation of handleLevelComplete: starsEarned starts at 0 and
the if/else-if chain grants 3, 2 or 1 stars by the most generous threshold
the move count satisfies. -/
def computeStars (moves : Nat) (stars : StarThresholds) : Nat :=
  if moves ≤ stars.s3 then 3
  else if moves ≤ stars.s2 then 2
  else if moves ≤ stars.s1 then 1
  else 0

/-- The per-session UI-facing state of the game object: the current game
state, the pending source selection, and the completion flag. -/
structure Session where
  state : GameState
  selectedTube : Option Nat
  gameComplete : Bool
deriving Repr, DecidableEq

/-- BallSortGame.attemptMove at session level (bulk-pour variant): on an
invalid move only a status message is shown (selection kept, no state
change); on success the move is applied, the selection cleared, and
checkWinCondition run, with handleLevelComplete setting gameComplete. -/
def sessionAttemptMove (s : Session) (fromId toId : Nat) : Session :=
  match attemptMove s.state fromId toId with
  | (st2, MoveOutcome.moved _) =>
    let s2 : Session := { s with state := st2, selectedTube := none }
    if checkWinCondition st2 then { s2 with gameComplete := true } else s2
  | _ => s

/-- BallSortGame.handleTubeClick (bulk-pour variant): ignore clicks once
the game is complete; ignore unknown tubes; with no pending selection,
select a non-empty tube (an empty one only shows a message); with a
pending selection, a second click on the same tube deselects with no
engine call, a click on another tube attempts the move. -/
def handleTubeClick (s : Session) (tubeId : Nat) : Session :=
  if s.gameComplete then s
  else
    match findTube s.state.tubes tubeId with
    | none => s
    | some tube =>
      match s.selectedTube with
      | none =>
        if tube.balls.length > 0 then { s with selectedTube := some tubeId } else s
      | some sel =>
        if sel = tubeId then { s with selectedTube := none }
        else sessionAttemptMove s sel tubeId

/-- BallSortGame.loadLevel: builds a brand-new game state from the level
data and resets the completion flag and the selection. -/
def loadLevel (s : Session) (ld : LevelData) : Session :=
  { s with state := createGameLevel ld, selectedTube := none, gameComplete := false }

/-- Multiset of the balls held by a list of tubes. -/
def tubesBalls : List Tube → Multiset Color
  | [] => 0
  | t :: ts => (t.balls : Multiset Color) + tubesBalls ts

/-- Multiset of all balls on the board, for conservation statements. -/
def allBalls (st : GameState) : Multiset Color :=
  tubesBalls st.tubes

/-! ## Helper lemmas -/

lemma pourLoop_eq (n : Nat) :
    ∀ (f t : List Color), n ≤ f.length →
      pourLoop n f t =
        (f.take (f.length - n), t ++ (f.drop (f.length - n)).reverse) := by
  induction n with
  | zero =>
    intro f t _
    simp [pourLoop]
  | succ n ih =>
    intro f t h
    rcases List.eq_nil_or_concat f with rfl | ⟨d, a, rfl⟩
    · simp at h
    · simp only [List.concat_eq_append] at h ⊢
      have hd : n ≤ d.length := by simp at h; omega
      simp only [pourLoop, List.getLast?_concat, List.dropLast_concat]
      rw [ih d (t ++ [a]) hd]
      have hlen : (d ++ [a]).length = d.length + 1 := by simp
      have h1 : (d ++ [a]).length - (n + 1) = d.length - n := by omega
      rw [h1, List.take_append_of_le_length (by omega),
        List.drop_append_of_le_length (by omega)]
      simp

/-- Abbreviation for the number of balls a bulk pour moves. -/
def pourCount (fromTube toTube : Tube) : Nat :=
  min fromTube.balls.length (toTube.capacity - toTube.balls.length)

lemma performMove_eq (f t : Tube) :
    performMove f t =
      ({ f with balls := f.balls.take (f.balls.length - pourCount f t) },
       { t with balls :=
          t.balls ++ (f.balls.drop (f.balls.length - pourCount f t)).reverse },
       pourCount f t) := by
  simp only [performMove, pourCount]
  rw [pourLoop_eq _ _ _ (Nat.min_le_left _ _)]

lemma pourCount_le (f t : Tube) : pourCount f t ≤ f.balls.length :=
  Nat.min_le_left _ _

lemma performMove_from_length (f t : Tube) :
    (performMove f t).1.balls.length = f.balls.length - pourCount f t := by
  rw [performMove_eq]
  simp [Nat.min_le_left]

lemma performMove_to_length (f t : Tube) :
    (performMove f t).2.1.balls.length = t.balls.length + pourCount f t := by
  rw [performMove_eq]
  have := pourCount_le f t
  simp
  omega

lemma performMove_multiset (f t : Tube) :
    ((performMove f t).1.balls : Multiset Color) +
        ((performMove f t).2.1.balls : Multiset Color) =
      (f.balls : Multiset Color) + (t.balls : Multiset Color) := by
  rw [performMove_eq]
  have h : (f.balls.take (f.balls.length - pourCount f t) : Multiset Color) +
      ((f.balls.drop (f.balls.length - pourCount f t)) : Multiset Color) =
      (f.balls : Multiset Color) := by
    rw [Multiset.coe_add]
    congr 1
    exact List.take_append_drop _ _
  calc (f.balls.take (f.balls.length - pourCount f t) : Multiset Color) +
        ((t.balls ++ (f.balls.drop (f.balls.length - pourCount f t)).reverse :
          List Color) : Multiset Color)
      = (f.balls.take (f.balls.length - pourCount f t) : Multiset Color) +
          ((t.balls : Multiset Color) +
            ((f.balls.drop (f.balls.length - pourCount f t)).reverse :
              Multiset Color)) := by
        rw [← Multiset.coe_add]
    _ = (f.balls : Multiset Color) + (t.balls : Multiset Color) := by
        rw [Multiset.coe_reverse]
        rw [← add_assoc, add_comm _ (t.balls : Multiset Color), add_assoc, h,
          add_comm]

lemma findTube_id {tubes : List Tube} {i : Nat} {f : Tube}
    (h : findTube tubes i = some f) : f.id = i := by
  have := List.find?_some h
  simpa using this

lemma findTube_mem {tubes : List Tube} {i : Nat} {f : Tube}
    (h : findTube tubes i = some f) : f ∈ tubes :=
  List.mem_of_find?_eq_some h

lemma tubesBalls_setTube {tubes : List Tube} {i : Nat} {f : Tube} (nt : Tube)
    (hf : findTube tubes i = some f) :
    tubesBalls (setTube tubes i nt) + (f.balls : Multiset Color) =
      tubesBalls tubes + (nt.balls : Multiset Color) := by
  induction tubes with
  | nil => simp [findTube] at hf
  | cons t ts ih =>
    by_cases hid : t.id = i
    · have hft : f = t := by
        simp [findTube, List.find?_cons, hid] at hf
        exact hf.symm
      subst hft
      simp [setTube, hid, tubesBalls]
      rw [add_comm (nt.balls : Multiset Color) (tubesBalls ts), add_assoc,
        add_comm (nt.balls : Multiset Color) (f.balls : Multiset Color),
        ← add_assoc, add_comm (tubesBalls ts) (f.balls : Multiset Color)]
    · have hf2 : findTube ts i = some f := by
        simpa [findTube, List.find?_cons, hid] using hf
      have := ih hf2
      simp [setTube, hid, tubesBalls]
      rw [add_assoc, this, ← add_assoc]

lemma findTube_setTube_ne {tubes : List Tube} {i j : Nat} {nt : Tube}
    (hne : i ≠ j) (hid : nt.id = i) :
    findTube (setTube tubes i nt) j = findTube tubes j := by
  induction tubes with
  | nil => rfl
  | cons t ts ih =>
    show findTube (if t.id = i then nt :: ts else t :: setTube ts i nt) j = _
    by_cases h : t.id = i
    · rw [if_pos h]
      unfold findTube
      rw [List.find?_cons_of_neg _ (by simp [hid]; exact hne),
        List.find?_cons_of_neg _ (by simp [h]; exact hne)]
    · rw [if_neg h]
      unfold findTube
      by_cases hj : t.id = j
      · rw [List.find?_cons_of_pos _ (by simp [hj]),
          List.find?_cons_of_pos _ (by simp [hj])]
      · rw [List.find?_cons_of_neg _ (by simp [hj]),
          List.find?_cons_of_neg _ (by simp [hj])]
        exact ih

lemma setTube_forall {P : Tube → Prop} {tubes : List Tube} {i : Nat} {nt : Tube}
    (h : ∀ t ∈ tubes, P t) (hnt : P nt) :
    ∀ t ∈ setTube tubes i nt, P t := by
  induction tubes with
  | nil => simp [setTube]
  | cons a ts ih =>
    intro t ht
    by_cases ha : a.id = i
    · simp [setTube, ha] at ht
      rcases ht with rfl | ht
      · exact hnt
      · exact h t (by simp [ht])
    · simp [setTube, ha] at ht
      rcases ht with rfl | ht
      · exact h t (by simp)
      · exact ih (fun u hu => h u (by simp [hu])) t ht

lemma isValidMove_none_elim {fromTube toTube : Tube}
    (h : isValidMove fromTube toTube = none) :
    fromTube.balls.length ≠ 0 ∧ fromTube.id ≠ toTube.id ∧
      toTube.balls.length < toTube.capacity := by
  unfold isValidMove at h
  split_ifs at h with h1 h2 h3
  exact ⟨h1, h2, by omega⟩

lemma performMove_from_id (f t : Tube) : (performMove f t).1.id = f.id := by
  rw [performMove_eq]

lemma performMove_to_id (f t : Tube) : (performMove f t).2.1.id = t.id := by
  rw [performMove_eq]

lemma performMove_from_capacity (f t : Tube) :
    (performMove f t).1.capacity = f.capacity := by
  rw [performMove_eq]

lemma performMove_to_capacity (f t : Tube) :
    (performMove f t).2.1.capacity = t.capacity := by
  rw [performMove_eq]

lemma attemptMove_cases (st : GameState) (fromId toId : Nat) :
    ((attemptMove st fromId toId).1 = st ∧
      ∀ k, (attemptMove st fromId toId).2 ≠ MoveOutcome.moved k) ∨
    (∃ f t, findTube st.tubes fromId = some f ∧
      findTube st.tubes toId = some t ∧ isValidMove f t = none ∧
      attemptMove st fromId toId =
        ({ st with
            tubes := setTube (setTube st.tubes fromId (performMove f t).1) toId
              (performMove f t).2.1,
            moves := st.moves + 1 },
          MoveOutcome.moved (performMove f t).2.2)) := by
  cases hf : findTube st.tubes fromId with
  | none => left; constructor <;> simp [attemptMove, hf]
  | some f =>
    cases ht : findTube st.tubes toId with
    | none => left; constructor <;> simp [attemptMove, hf, ht]
    | some t =>
      cases hv : isValidMove f t with
      | some reason => left; constructor <;> simp [attemptMove, hf, ht, hv]
      | none =>
        right
        exact ⟨f, t, rfl, rfl, hv, by simp [attemptMove, hf, ht, hv]⟩

lemma attemptMove2_moves (st : GameState) (fromId toId : Nat) :
    (attemptMove2 st fromId toId).1.moves =
      match (attemptMove2 st fromId toId).2 with
      | MoveOutcome.moved _ => st.moves + 1
      | _ => st.moves := by
  cases hf : findTube st.tubes fromId with
  | none => simp [attemptMove2, hf]
  | some f =>
    cases ht : findTube st.tubes toId with
    | none => simp [attemptMove2, hf, ht]
    | some t =>
      cases hv : isValidMove2 f t with
      | some reason => simp [attemptMove2, hf, ht, hv]
      | none => simp [attemptMove2, hf, ht, hv]

/-! ## Claim theorems -/

/-- C1 is false as stated: with desiredLevel present but equal to 0, the
spec reading of targetFill (desiredLevel, default 2 only when absent) is 0,
and a board of one empty tube has every tube at that count, yet
checkWinCondition returns false, because the source applies a JS falsy
default that also replaces 0 by 2. -/
theorem C1_counterexample :
    specTargetFill (some 0) = 0 ∧
    List.all [(⟨0, [], 4⟩ : Tube)]
      (fun tube => tube.balls.length == specTargetFill (some 0)) = true ∧
    checkWinCondition ⟨[⟨0, [], 4⟩], 0, some 0, 3, ⟨1, 1, 1⟩⟩ = false := by
  decide

/-- C1 (amended): checkWinCondition is true iff the ball count of every
tube equals the board targetFill, where targetFill is desiredLevel defaulting
to 2 when absent or when it is 0 (the JS falsy default); the result depends
only on the tube ball counts and desiredLevel, not on move history or ball
colors. -/
theorem C1_checkWinCondition_count_based :
    (∀ st : GameState, checkWinCondition st = true ↔
      ∀ tube ∈ st.tubes, tube.balls.length = targetFill st) ∧
    (∀ st1 st2 : GameState,
      st1.tubes.map (fun tube => tube.balls.length) =
        st2.tubes.map (fun tube => tube.balls.length) →
      st1.desiredLevel = st2.desiredLevel →
      checkWinCondition st1 = checkWinCondition st2) := by
  constructor
  · intro st
    simp [checkWinCondition, List.all_eq_true]
  · intro st1 st2 hmap hdl
    have htf : targetFill st1 = targetFill st2 := by simp [targetFill, hdl]
    have hall : ∀ (l : List Tube) (c : Nat),
        l.all (fun tube => tube.balls.length == c) =
          (l.map (fun tube => tube.balls.length)).all (fun n => n == c) := by
      intro l c
      induction l with
      | nil => rfl
      | cons t ts ih => simp [List.all_cons, ih]
    unfold checkWinCondition
    rw [hall st1.tubes (targetFill st1), hall st2.tubes (targetFill st2),
      hmap, htf]

/-- Closed application of the C1 amended theorem: a one-tube board with 2
balls and absent desiredLevel is winning, and two boards with equal count
lists and equal desiredLevel agree. -/
theorem C1_checkWinCondition_count_based_witness :
    checkWinCondition ⟨[⟨0, ["red", "blue"], 4⟩], 7, none, 0, ⟨1, 1, 1⟩⟩ = true ∧
    checkWinCondition ⟨[⟨0, ["red", "blue"], 4⟩], 7, none, 0, ⟨1, 1, 1⟩⟩ =
      checkWinCondition ⟨[⟨1, ["green", "green"], 9⟩], 3, none, 5, ⟨2, 2, 2⟩⟩ :=
  ⟨(C1_checkWinCondition_count_based.1 _).mpr (by decide),
    C1_checkWinCondition_count_based.2 _ _ (by decide) (by decide)⟩

/-- C2: the bulk pour transfers exactly min(source ball count, free space
of the destination) balls, popping each off the top of the source and
pushing it onto the top of the destination, so the source keeps a prefix
of its stack and the destination gains the popped suffix in reversed
order; includes the spec scenario (two reds into an empty tube) and a
two-color example exhibiting the reversal. -/
theorem C2_performMove_bulk_pour :
    (∀ fromTube toTube : Tube,
      performMove fromTube toTube =
        ({ fromTube with balls :=
            fromTube.balls.take (fromTube.balls.length - pourCount fromTube toTube) },
         { toTube with balls :=
            toTube.balls ++
              (fromTube.balls.drop (fromTube.balls.length - pourCount fromTube toTube)).reverse },
         pourCount fromTube toTube)) ∧
    performMove ⟨0, ["red", "red"], 4⟩ ⟨1, [], 4⟩ =
      (⟨0, [], 4⟩, ⟨1, ["red", "red"], 4⟩, 2) ∧
    performMove ⟨0, ["red", "green"], 4⟩ ⟨1, [], 4⟩ =
      (⟨0, [], 4⟩, ⟨1, ["green", "red"], 4⟩, 2) :=
  ⟨performMove_eq, by decide, by decide⟩

/-- C3: validation order and rejection behavior of the bulk-pour
applyMove on distinct tube ids: an empty source is rejected first with
reason No balls to move (the EMPTY_SOURCE code), regardless of the
destination; a full destination is rejected with reason Destination tube
is full (the DESTINATION_FULL code); any source with balls may pour into
any distinct tube with free capacity, whatever the colors; and a rejected
attempt mutates nothing. -/
theorem C3_applyMove_validation :
    (∀ fromTube toTube : Tube, fromTube.balls.length = 0 →
      isValidMove fromTube toTube = some "No balls to move") ∧
    (∀ fromTube toTube : Tube, fromTube.balls.length ≠ 0 →
      fromTube.id ≠ toTube.id → toTube.capacity ≤ toTube.balls.length →
      isValidMove fromTube toTube = some "Destination tube is full") ∧
    (∀ fromTube toTube : Tube, fromTube.balls.length ≠ 0 →
      fromTube.id ≠ toTube.id → toTube.balls.length < toTube.capacity →
      isValidMove fromTube toTube = none) ∧
    (∀ (st : GameState) (fromId toId : Nat) (reason : String),
      (attemptMove st fromId toId).2 = MoveOutcome.rejected reason →
      (attemptMove st fromId toId).1 = st) := by
  refine ⟨?_, ?_, ?_, ?_⟩
  · intro f t h
    simp [isValidMove, h]
  · intro f t h1 h2 h3
    simp [isValidMove, h1, h2, h3]
  · intro f t h1 h2 h3
    simp [isValidMove, h1, h2, Nat.not_le.mpr h3]
  · intro st fromId toId reason h
    rcases attemptMove_cases st fromId toId with ⟨h1, _⟩ | ⟨f, t, hf, ht, hv, he⟩
    · exact h1
    · rw [he] at h
      simp at h

/-- Closed application of C3 at concrete inputs: an empty source is
rejected even though the destination is full and colors differ; a full
destination is rejected; a green ball may pour onto a blue one; and a
rejected attempt leaves the board unchanged. -/
theorem C3_applyMove_validation_witness :
    isValidMove ⟨0, [], 4⟩ ⟨1, ["blue", "blue", "blue", "blue"], 4⟩ =
      some "No balls to move" ∧
    isValidMove ⟨0, ["green"], 4⟩ ⟨1, ["green", "green", "green", "green"], 4⟩ =
      some "Destination tube is full" ∧
    isValidMove ⟨0, ["green"], 4⟩ ⟨1, ["blue"], 4⟩ = none ∧
    (attemptMove ⟨[⟨0, [], 4⟩, ⟨1, ["blue"], 4⟩], 0, none, 0, ⟨1, 1, 1⟩⟩ 0 1).1 =
      ⟨[⟨0, [], 4⟩, ⟨1, ["blue"], 4⟩], 0, none, 0, ⟨1, 1, 1⟩⟩ :=
  ⟨C3_applyMove_validation.1 _ _ (by decide),
    C3_applyMove_validation.2.1 _ _ (by decide) (by decide) (by decide),
    C3_applyMove_validation.2.2.1 _ _ (by decide) (by decide) (by decide),
    C3_applyMove_validation.2.2.2 _ 0 1 "No balls to move" (by decide)⟩

/-- C8: computeStars is a most-generous-first lookup on the three
thresholds, with the three example evaluations from the spec. -/
theorem C8_computeStars_lookup :
    (∀ (moves : Nat) (stars : StarThresholds),
      (computeStars moves stars = 3 ↔ moves ≤ stars.s3) ∧
      (computeStars moves stars = 2 ↔ stars.s3 < moves ∧ moves ≤ stars.s2) ∧
      (computeStars moves stars = 1 ↔
        stars.s3 < moves ∧ stars.s2 < moves ∧ moves ≤ stars.s1) ∧
      (computeStars moves stars = 0 ↔
        stars.s3 < moves ∧ stars.s2 < moves ∧ stars.s1 < moves)) ∧
    computeStars 7 ⟨18, 13, 9⟩ = 3 ∧
    computeStars 10 ⟨18, 13, 9⟩ = 2 ∧
    computeStars 20 ⟨18, 13, 9⟩ = 0 := by
  refine ⟨fun moves stars => ?_, by decide, by decide, by decide⟩
  unfold computeStars
  split_ifs with h1 h2 h3 <;> refine ⟨?_, ?_, ?_, ?_⟩ <;> constructor <;>
    intro h <;> first | omega | exact h.elim

/-- C4: for every board and every move request, the move counter grows by
exactly 1 on a successful attempt, regardless of how many balls that pour
transferred, and is unchanged on every rejected or unresolved attempt; the
same holds for the single-pour draft variant. -/
theorem C4_moveCount_increment :
    ∀ (st : GameState) (fromId toId : Nat),
      ((attemptMove st fromId toId).1.moves =
        match (attemptMove st fromId toId).2 with
        | MoveOutcome.moved _ => st.moves + 1
        | _ => st.moves) ∧
      ((attemptMove2 st fromId toId).1.moves =
        match (attemptMove2 st fromId toId).2 with
        | MoveOutcome.moved _ => st.moves + 1
        | _ => st.moves) := by
  intro st fromId toId
  refine ⟨?_, attemptMove2_moves st fromId toId⟩
  rcases attemptMove_cases st fromId toId with ⟨h1, h2⟩ | ⟨f, t, hf, ht, hv, he⟩
  · rw [h1]
    cases ho : (attemptMove st fromId toId).2 with
    | invalidIds => rfl
    | rejected reason => rfl
    | moved k => exact absurd ho (h2 k)
  · rw [he]

/-- C5: the capacity invariant is preserved: if every tube of a board
satisfies ball count at most capacity, then after any attempted move
(successful, rejected, or with unknown ids) every tube still does. -/
theorem C5_capacity_invariant :
    ∀ (st : GameState) (fromId toId : Nat),
      (∀ tube ∈ st.tubes, tube.balls.length ≤ tube.capacity) →
      ∀ tube ∈ (attemptMove st fromId toId).1.tubes,
        tube.balls.length ≤ tube.capacity := by
  intro st fromId toId hinv
  rcases attemptMove_cases st fromId toId with ⟨h1, _⟩ | ⟨f, t, hf, ht, hv, he⟩
  · rw [h1]; exact hinv
  · rw [he]
    have hfmem := findTube_mem hf
    have htmem := findTube_mem ht
    have hfcap : (performMove f t).1.balls.length ≤ (performMove f t).1.capacity := by
      rw [performMove_from_length, performMove_from_capacity]
      have := hinv f hfmem
      omega
    have htcap : (performMove f t).2.1.balls.length ≤ (performMove f t).2.1.capacity := by
      rw [performMove_to_length, performMove_to_capacity]
      have h1 := hinv t htmem
      have h2 : pourCount f t ≤ t.capacity - t.balls.length := Nat.min_le_right _ _
      omega
    exact setTube_forall (setTube_forall hinv hfcap) htcap

/-- Closed application of C5: after pouring two reds onto a blue in a
one-slot gap, every tube of the board respects its capacity. -/
theorem C5_capacity_invariant_witness :
    ((attemptMove ⟨[⟨0, ["red", "red"], 4⟩, ⟨1, ["blue"], 2⟩], 0, none, 0,
        ⟨1, 1, 1⟩⟩ 0 1).1.tubes.all
      (fun tube => decide (tube.balls.length ≤ tube.capacity))) = true := by
  rw [List.all_eq_true]
  intro tube htube
  have h := C5_capacity_invariant
    ⟨[⟨0, ["red", "red"], 4⟩, ⟨1, ["blue"], 2⟩], 0, none, 0, ⟨1, 1, 1⟩⟩ 0 1
    (by decide) tube htube
  simpa using h

/-- C6: ball conservation: for every board and every attempted move, the
multiset of all balls across all tubes is unchanged, whether the attempt
succeeds or is rejected. -/
theorem C6_ball_conservation :
    ∀ (st : GameState) (fromId toId : Nat),
      allBalls (attemptMove st fromId toId).1 = allBalls st := by
  intro st fromId toId
  rcases attemptMove_cases st fromId toId with ⟨h1, _⟩ | ⟨f, t, hf, ht, hv, he⟩
  · rw [h1]
  · rw [he]
    have hne : fromId ≠ toId := by
      have h1 := findTube_id hf
      have h2 := findTube_id ht
      have h3 := (isValidMove_none_elim hv).2.1
      omega
    have hid1 : (performMove f t).1.id = fromId := by
      rw [performMove_from_id]; exact findTube_id hf
    have e1 := tubesBalls_setTube (performMove f t).1 hf
    have hfind2 : findTube (setTube st.tubes fromId (performMove f t).1) toId =
        some t := by
      rw [findTube_setTube_ne hne hid1]; exact ht
    have e2 := tubesBalls_setTube (performMove f t).2.1 hfind2
    have e3 := performMove_multiset f t
    show tubesBalls (setTube (setTube st.tubes fromId (performMove f t).1) toId
      (performMove f t).2.1) = tubesBalls st.tubes
    have key : tubesBalls (setTube (setTube st.tubes fromId (performMove f t).1)
          toId (performMove f t).2.1) +
          ((t.balls : Multiset Color) + (f.balls : Multiset Color)) =
        tubesBalls st.tubes + ((t.balls : Multiset Color) + (f.balls : Multiset Color)) := by
      calc tubesBalls (setTube (setTube st.tubes fromId (performMove f t).1)
              toId (performMove f t).2.1) +
            ((t.balls : Multiset Color) + (f.balls : Multiset Color))
          = (tubesBalls (setTube (setTube st.tubes fromId (performMove f t).1)
              toId (performMove f t).2.1) + (t.balls : Multiset Color)) +
            (f.balls : Multiset Color) := by rw [add_assoc]
        _ = (tubesBalls (setTube st.tubes fromId (performMove f t).1) +
            ((performMove f t).2.1.balls : Multiset Color)) +
            (f.balls : Multiset Color) := by rw [e2]
        _ = (tubesBalls (setTube st.tubes fromId (performMove f t).1) +
            (f.balls : Multiset Color)) +
            ((performMove f t).2.1.balls : Multiset Color) := by
              rw [add_assoc, add_comm ((performMove f t).2.1.balls : Multiset Color),
                ← add_assoc]
        _ = (tubesBalls st.tubes + ((performMove f t).1.balls : Multiset Color)) +
            ((performMove f t).2.1.balls : Multiset Color) := by rw [e1]
        _ = tubesBalls st.tubes + (((performMove f t).1.balls : Multiset Color) +
            ((performMove f t).2.1.balls : Multiset Color)) := by rw [add_assoc]
        _ = tubesBalls st.tubes + ((f.balls : Multiset Color) +
            (t.balls : Multiset Color)) := by rw [e3]
        _ = tubesBalls st.tubes + ((t.balls : Multiset Color) +
            (f.balls : Multiset Color)) := by
              rw [add_comm (f.balls : Multiset Color)]
    exact add_right_cancel key

/-- C7: once the completion flag is set (handleLevelComplete ran after the
win condition became true), every subsequent tube click is ignored, leaving
the session untouched, and the freeze ends only with loadLevel, which
builds a brand-new board from the level data with zero moves and a cleared
completion flag. -/
theorem C7_terminal_state :
    (∀ (s : Session) (clicks : List Nat), s.gameComplete = true →
      List.foldl handleTubeClick s clicks = s) ∧
    (∀ (s : Session) (fromId toId k : Nat),
      (attemptMove s.state fromId toId).2 = MoveOutcome.moved k →
      checkWinCondition (attemptMove s.state fromId toId).1 = true →
      (sessionAttemptMove s fromId toId).gameComplete = true) ∧
    (∀ (s : Session) (ld : LevelData),
      (loadLevel s ld).gameComplete = false ∧
      (loadLevel s ld).state = createGameLevel ld ∧
      (loadLevel s ld).state.moves = 0) := by
  refine ⟨?_, ?_, ?_⟩
  · intro s clicks h
    induction clicks with
    | nil => rfl
    | cons c cs ih =>
      rw [List.foldl_cons, show handleTubeClick s c = s from by
        simp [handleTubeClick, h]]
      exact ih
  · intro s fromId toId k h1 h2
    cases hm : attemptMove s.state fromId toId with
    | mk st2 out =>
      rw [hm] at h1 h2
      simp only at h1 h2
      subst h1
      simp [sessionAttemptMove, hm, h2]
  · intro s ld
    exact ⟨rfl, rfl, rfl⟩

/-- Closed application of C7: a completed session ignores a burst of
clicks, and loading a level clears the completion flag. -/
theorem C7_terminal_state_witness :
    List.foldl handleTubeClick
      ⟨⟨[⟨0, ["red", "red"], 4⟩], 9, none, 0, ⟨1, 1, 1⟩⟩, none, true⟩
      [0, 0, 1, 0] =
      ⟨⟨[⟨0, ["red", "red"], 4⟩], 9, none, 0, ⟨1, 1, 1⟩⟩, none, true⟩ ∧
    (loadLevel
      ⟨⟨[⟨0, ["red", "red"], 4⟩], 9, none, 0, ⟨1, 1, 1⟩⟩, none, true⟩
      ⟨1, [⟨0, ["blue"], 4⟩], ["blue"], none, 2, ⟨3, 2, 1⟩⟩).gameComplete =
      false ∧
    (sessionAttemptMove
      ⟨⟨[⟨0, ["red", "red", "red"], 4⟩, ⟨1, ["blue"], 2⟩], 0, none, 0,
        ⟨1, 1, 1⟩⟩, some 0, false⟩ 0 1).gameComplete = true :=
  ⟨C7_terminal_state.1 _ [0, 0, 1, 0] rfl,
    (C7_terminal_state.2.2 _
      ⟨1, [⟨0, ["blue"], 4⟩], ["blue"], none, 2, ⟨3, 2, 1⟩⟩).1,
    C7_terminal_state.2.1 _ 0 1 1 (by decide) (by decide)⟩

/-- C9 is false as stated for the authoritative bulk-pour variant: its
isValidMove does perform a same-tube check.  At a non-empty source and a
destination with free capacity but the same id, validation rejects with
reason Cannot move to same tube, which is neither the empty-source nor the
full-destination rejection. -/
theorem C9_counterexample :
    isValidMove ⟨0, ["red"], 4⟩ ⟨0, ["blue"], 4⟩ =
      some "Cannot move to same tube" ∧
    0 < (⟨0, ["red"], 4⟩ : Tube).balls.length ∧
    (⟨0, ["blue"], 4⟩ : Tube).balls.length < (⟨0, ["blue"], 4⟩ : Tube).capacity := by
  decide

/-- C9 (amended): the isValidMove of the bulk-pour variant does perform a
same-tube check (after the empty-source check), rejecting with reason
Cannot move to same tube; only the isValidMove of the single-pour draft
rejects solely for an empty source or a full destination; independently,
the selection protocol of the caller cancels a second tap on the same tube with no
engine call and no board change. -/
theorem C9_same_tube_handling :
    (∀ fromTube toTube : Tube, 0 < fromTube.balls.length →
      fromTube.id = toTube.id →
      isValidMove fromTube toTube = some "Cannot move to same tube") ∧
    (∀ fromTube toTube : Tube,
      isValidMove2 fromTube toTube = none ∨
      isValidMove2 fromTube toTube = some "No balls to move" ∨
      isValidMove2 fromTube toTube = some "Tube is full") ∧
    (∀ (s : Session) (tubeId : Nat) (tube : Tube),
      s.gameComplete = false → s.selectedTube = some tubeId →
      findTube s.state.tubes tubeId = some tube →
      handleTubeClick s tubeId = { s with selectedTube := none }) := by
  refine ⟨?_, ?_, ?_⟩
  · intro f t h1 h2
    have h3 : ¬f.balls.length = 0 := by omega
    simp [isValidMove, h3, h2]
  · intro f t
    unfold isValidMove2
    split_ifs <;> simp
  · intro s tubeId tube h1 h2 h3
    simp [handleTubeClick, h1, h2, h3]

/-- Closed application of C9 amended: the same-tube rejection at a concrete
tube, the single-pour validator accepting a same-tube pour with space, and
a second tap on the selected tube deselecting without touching the board. -/
theorem C9_same_tube_handling_witness :
    isValidMove ⟨2, ["green"], 4⟩ ⟨2, ["green"], 4⟩ =
      some "Cannot move to same tube" ∧
    (isValidMove2 ⟨2, ["green"], 4⟩ ⟨2, ["green"], 4⟩ = none ∨
      isValidMove2 ⟨2, ["green"], 4⟩ ⟨2, ["green"], 4⟩ = some "No balls to move" ∨
      isValidMove2 ⟨2, ["green"], 4⟩ ⟨2, ["green"], 4⟩ = some "Tube is full") ∧
    handleTubeClick
      ⟨⟨[⟨2, ["green"], 4⟩], 0, none, 0, ⟨1, 1, 1⟩⟩, some 2, false⟩ 2 =
      ⟨⟨[⟨2, ["green"], 4⟩], 0, none, 0, ⟨1, 1, 1⟩⟩, none, false⟩ :=
  ⟨C9_same_tube_handling.1 _ _ (by decide) rfl,
    C9_same_tube_handling.2.1 _ _,
    C9_same_tube_handling.2.2 _ 2 ⟨2, ["green"], 4⟩ rfl rfl (by decide)⟩

/-- C10: a level definition with an empty tubes array but a truthy levelId
and a colors array passes validateLevel, and on the board built from it the
win check over zero tubes is vacuously true, so the session is solved at
the first win check. -/
theorem C10_empty_level_vacuous_win :
    ∀ (ld : LevelData), ld.tubes = [] → ld.levelId ≠ 0 →
      validateLevel ld = true ∧
      checkWinCondition (createGameLevel ld) = true := by
  intro ld h1 h2
  constructor
  · simp [validateLevel, h1, h2]
  · simp [checkWinCondition, createGameLevel, h1]

/-- Closed application of C10 to a concrete zero-tube level. -/
theorem C10_empty_level_vacuous_win_witness :
    validateLevel ⟨1, [], ["red", "blue"], none, 5, ⟨3, 2, 1⟩⟩ = true ∧
    checkWinCondition
      (createGameLevel ⟨1, [], ["red", "blue"], none, 5, ⟨3, 2, 1⟩⟩) = true :=
  C10_empty_level_vacuous_win ⟨1, [], ["red", "blue"], none, 5, ⟨3, 2, 1⟩⟩
    rfl (by decide)
